import Mathlib

/-!
Verification of the jetpack project-management client.

The development shallowly embeds the two project-modal variants, the
pagination link component, and the three read fetches:

* `src/src/components/projects/ProjectModal.tsx` — the variant with a
  hand-rolled `handleSubmit` guard and native HTML `required` attributes
  (embedded as `handleSubmit`, `nativeFormValid`, `tsxSubmitFlow`);
* `src/unnamed/part_000` — the react-hook-form / zod / react-query variant
  (embedded as `projectSchemaParse`, `formatProjectData`, `createMutationFn`,
  `updateMutationFn`, `createOnSuccess`, `updateOnSuccess`, `createOnError`,
  `updateOnError`, `getDefaultValues`, `onSubmitModal`, `checkboxToggle`);
* `src/src/components/ui/pagination.tsx` — `PaginationLink`
  (embedded as `renderPaginationLink`).

JavaScript truthiness on strings (empty string is falsy) is embedded by the
`jsOrStr` / `jsOrOpt` / `jsTruthyStr` helpers; `undefined`/`null` values are
both embedded as `Option.none`.  Side effects (toasts, network calls,
callback invocations, closing the dialog) are embedded as values of the
inductive `Effect`, and a handler is embedded as the list of effects it
performs, in order.
-/

namespace Jetpack

/-- Project status enum, from the zod schema and the `Project` interface:
one of "Not Started" / "In Progress" / "Complete". -/
inductive Status where
  | notStarted
  | inProgress
  | complete
deriving DecidableEq, Repr

/-- JS `a || b` where `a` is an optional string and the result is a string:
`undefined` and the empty string are falsy. -/
def jsOrStr (a : Option String) (b : String) : String :=
  match a with
  | some s => if s = "" then b else s
  | none => b

/-- JS `a || b` on two optional strings: `undefined` and `""` are falsy. -/
def jsOrOpt (a : Option String) (b : Option String) : Option String :=
  match a with
  | some s => if s = "" then b else some s
  | none => b

/-- JS truthiness test on an optional string: keeps the value only when it
is present and non-empty. -/
def jsTruthyStr (a : Option String) : Option String :=
  match a with
  | some s => if s = "" then none else some s
  | none => none

/-- JS `String.prototype.trim`: strips leading and trailing whitespace.
Implemented over the character list so that it evaluates by kernel
reduction. -/
def jsTrim (s : String) : String :=
  ⟨((s.data.dropWhile Char.isWhitespace).reverse.dropWhile
      Char.isWhitespace).reverse⟩

/-- The `Project` interface of `src/unnamed/part_000` (lines 56-70).  The
TS field `_id` is embedded as `mId`.  Optional TS fields are `Option`s. -/
structure Project where
  id : Option String := none
  mId : Option String := none
  name : String := ""
  description : Option String := none
  clientId : String := ""
  status : Option Status := none
  dueDate : Option String := none
  startDate : Option String := none
  assigneeId : Option String := none
  teamMemberIds : Option (List String) := none
  repeating : Option Bool := none
  isRecurring : Option Bool := none
  templateId : Option String := none
deriving DecidableEq, Repr

/-- The `ProjectFormValues` record produced by the zod schema of
`src/unnamed/part_000`.  `teamMemberIds` is an `Option (List String)`:
`none` embeds a runtime value that is not an array, the case the
mutation functions guard against with `Array.isArray`; a well-typed form
always carries `some`.  Dates are embedded as strings. -/
structure ProjectFormValues where
  name : String := ""
  description : Option String := none
  clientId : String := ""
  assigneeId : Option String := none
  teamMemberIds : Option (List String) := some []
  isRecurring : Bool := false
  startDate : String := ""
  templateId : Option String := none
  status : Status := .notStarted
deriving DecidableEq, Repr

/-- Raw, unvalidated form input fed to the zod resolver; every field may be
missing. -/
structure RawFormInput where
  name : Option String := none
  description : Option String := none
  clientId : Option String := none
  assigneeId : Option String := none
  teamMemberIds : Option (List String) := none
  isRecurring : Option Bool := none
  startDate : Option String := none
  templateId : Option String := none
  status : Option Status := none
deriving DecidableEq, Repr

/-- The zod `projectSchema` of `src/unnamed/part_000` (lines 92-104):
`name` and `clientId` must be non-empty strings, `startDate` is required,
`teamMemberIds` defaults to `[]`, `isRecurring` defaults to `false`,
`status` defaults to "Not Started"; the rest are optional.  Returns the
validated values or the list of validation messages. -/
def projectSchemaParse (r : RawFormInput) : Except (List String) ProjectFormValues :=
  let errs :=
    (if (r.name.getD "").length < 1 then ["Project name is required"] else []) ++
    (if (r.clientId.getD "").length < 1 then ["Client is required"] else []) ++
    (if r.startDate.isNone then ["Start date is required"] else [])
  if errs.isEmpty then
    .ok
      { name := r.name.getD ""
        description := r.description
        clientId := r.clientId.getD ""
        assigneeId := r.assigneeId
        teamMemberIds := some (r.teamMemberIds.getD [])
        isRecurring := r.isRecurring.getD false
        startDate := r.startDate.getD ""
        templateId := r.templateId
        status := r.status.getD .notStarted }
  else .error errs

/-- The payload built by the `formattedData` spread in both mutation
functions of `src/unnamed/part_000` (lines 190-194 and 219-223). -/
structure FormattedProjectData where
  name : String
  description : Option String
  clientId : String
  assigneeId : Option String
  teamMemberIds : List String
  isRecurring : Bool
  startDate : String
  templateId : Option String
  status : Status
deriving DecidableEq, Repr

/-- Embeds the `formattedData` spread: `assigneeId` becomes null when it
equals the "none" sentinel string, and `teamMemberIds` is forced through
the `Array.isArray` guard to `[]` when it is not an array.  Thus the
"none" sentinel becomes an absent value in the payload. -/
def formatProjectData (d : ProjectFormValues) : FormattedProjectData :=
  { name := d.name
    description := d.description
    clientId := d.clientId
    assigneeId := if d.assigneeId = some "none" then none else d.assigneeId
    teamMemberIds := d.teamMemberIds.getD []
    isRecurring := d.isRecurring
    startDate := d.startDate
    templateId := d.templateId
    status := d.status }

/-- HTTP method of a request issued through the axios instance. -/
inductive Method where
  | get
  | post
  | patch
deriving DecidableEq, Repr

/-- A request issued through the axios instance (relative to its base URL). -/
structure ApiRequest where
  method : Method
  url : String
  body : FormattedProjectData
deriving DecidableEq, Repr

/-- The `createMutation.mutationFn` of `src/unnamed/part_000` (lines
186-203): formats the data and posts it to `/projects`. -/
def createMutationFn (data : ProjectFormValues) : ApiRequest :=
  { method := .post, url := "/projects", body := formatProjectData data }

/-- The `updateMutation.mutationFn` of `src/unnamed/part_000` (lines
215-232): formats the data and patches `/projects/:id`. -/
def updateMutationFn (id : String) (data : ProjectFormValues) : ApiRequest :=
  { method := .patch, url := "/projects/" ++ id, body := formatProjectData data }

/-- A backend record as returned by `POST /projects` (only the identifier
fields matter to the handlers); `_id` is embedded as `mId`. -/
structure BackendRecord where
  mId : Option String := none
  id : Option String := none
deriving DecidableEq, Repr

/-- The error value observed by the mutation error handlers:
`error?.response?.data?.message`, which may be missing. -/
structure ApiError where
  responseMessage : Option String := none
deriving DecidableEq, Repr

/-- The form data of the `ProjectModal.tsx` variant
(`CreateProjectFormData`, initialised at lines 25-33); `frequency` is the
raw select value, `""` when unset. -/
structure CreateProjectFormData where
  name : String := ""
  description : String := ""
  clientId : String := ""
  assigneeId : String := ""
  teamMemberIds : List String := []
  repeating : Bool := false
  dueDate : String := ""
  frequency : String := ""
deriving DecidableEq, Repr

/-- The object passed to `createProject` by `handleSubmit` of
`ProjectModal.tsx` (lines 93-98): the form data plus a fixed
"Not Started" status; the TS `as` cast on `frequency` is a runtime
identity. -/
structure NewProjectData where
  name : String
  description : String
  clientId : String
  assigneeId : String
  teamMemberIds : List String
  repeating : Bool
  dueDate : String
  frequency : String
  status : Status
deriving DecidableEq, Repr

/-- Observable side effects of the handlers, in order of execution:
toasts, network calls, caller-supplied callbacks, and closing the modal. -/
inductive Effect where
  | toastSuccess (msg : String)
  | toastError (msg : String)
  | invokeOnCreated (id : Option String)
  | invokeOnUpdated
  | mutateCreate (data : ProjectFormValues)
  | mutateUpdate (id : String) (data : ProjectFormValues)
  | createProjectCall (body : NewProjectData)
  | closeModal
deriving DecidableEq, Repr

/-- True exactly on the effects that issue a create or update network
call. -/
def isNetworkEffect : Effect → Bool
  | .mutateCreate _ => true
  | .mutateUpdate _ _ => true
  | .createProjectCall _ => true
  | _ => false

/-- No create or update network call occurs in the effect list. -/
def issuesNoNetworkCall (effs : List Effect) : Prop :=
  ∀ e ∈ effs, isNetworkEffect e = false

instance (effs : List Effect) : Decidable (issuesNoNetworkCall effs) := by
  unfold issuesNoNetworkCall
  infer_instance

/-- The `newProject` object built inside `handleSubmit` of
`ProjectModal.tsx` (lines 93-98). -/
def buildNewProject (fd : CreateProjectFormData) : NewProjectData :=
  { name := fd.name
    description := fd.description
    clientId := fd.clientId
    assigneeId := fd.assigneeId
    teamMemberIds := fd.teamMemberIds
    repeating := fd.repeating
    dueDate := fd.dueDate
    frequency := fd.frequency
    status := .notStarted }

/-- The `handleSubmit` of `ProjectModal.tsx` (lines 76-109).  It guards on
a whitespace-trimmed `name` and on `clientId`, then awaits
`createProject`; `createResult` is the outcome of that call.  On success
it toasts and closes the modal (`onClose`), on failure it toasts the fixed
generic message — the caught error is never inspected. -/
def handleSubmit (fd : CreateProjectFormData)
    (createResult : Except ApiError Unit) : List Effect :=
  if jsTrim fd.name = "" then [.toastError "Project name is required"]
  else if fd.clientId = "" then [.toastError "Client selection is required"]
  else
    match createResult with
    | .ok _ =>
        [.createProjectCall (buildNewProject fd),
         .toastSuccess "Project created successfully", .closeModal]
    | .error _ =>
        [.createProjectCall (buildNewProject fd),
         .toastError "Failed to create project"]

/-- Modelled from the `required` attributes in the JSX of
`ProjectModal.tsx`: native HTML constraint validation lets a form submit
only when every rendered `required` control has a non-empty value.  The
required controls are the name input (line 149), the client select (line
179), and the frequency select (line 280), which is rendered only when
`repeating` is true (line 269) and is `required` exactly then. -/
def nativeFormValid (fd : CreateProjectFormData) : Bool :=
  (fd.name != "") && (fd.clientId != "") &&
    (!fd.repeating || (fd.frequency != ""))

/-- The full submit pipeline of `ProjectModal.tsx`: the browser fires the
submit event (and hence `handleSubmit`) only when constraint validation
passes. -/
def tsxSubmitFlow (fd : CreateProjectFormData)
    (createResult : Except ApiError Unit) : List Effect :=
  if nativeFormValid fd then handleSubmit fd createResult else []

/-- The `createMutation.onSuccess` handler of `src/unnamed/part_000`
(lines 204-207): toasts, then calls `onCreated(data._id || data.id)` when
the caller supplied the callback. -/
def createOnSuccess (onCreatedProvided : Bool) (data : BackendRecord) :
    List Effect :=
  [.toastSuccess "Project created successfully"] ++
    (if onCreatedProvided then [.invokeOnCreated (jsOrOpt data.mId data.id)]
     else [])

/-- The `updateMutation.onSuccess` handler of `src/unnamed/part_000`
(lines 233-236): toasts, then calls `onUpdated()` — with no argument —
when the caller supplied the callback. -/
def updateOnSuccess (onUpdatedProvided : Bool) : List Effect :=
  [.toastSuccess "Project updated successfully"] ++
    (if onUpdatedProvided then [.invokeOnUpdated] else [])

/-- The `createMutation.onError` handler of `src/unnamed/part_000`
(lines 208-211): toasts `error?.response?.data?.message` or the generic
fallback. -/
def createOnError (e : ApiError) : List Effect :=
  [.toastError (jsOrStr e.responseMessage "Failed to create project")]

/-- The `updateMutation.onError` handler of `src/unnamed/part_000`
(lines 237-240). -/
def updateOnError (e : ApiError) : List Effect :=
  [.toastError (jsOrStr e.responseMessage "Failed to update project")]

/-- The identifier lookup `project.id || project._id` followed by the JS
truthiness test `if (projectId)` in the `onSubmit` of
`src/unnamed/part_000` (lines 294-295). -/
def truthyProjectId (p : Project) : Option String :=
  jsTruthyStr (jsOrOpt p.id p.mId)

/-- The `onSubmit` of `src/unnamed/part_000` (lines 290-303): in edit mode
with a project whose `id || _id` is truthy it fires the update mutation,
in edit mode without a usable identifier it only toasts an error, and
otherwise it fires the create mutation. -/
def onSubmitModal (isEditing : Bool) (project : Option Project)
    (values : ProjectFormValues) : List Effect :=
  match isEditing, project with
  | true, some p =>
      match truthyProjectId p with
      | some pid => [.mutateUpdate pid values]
      | none => [.toastError "Cannot update project: Missing project ID"]
  | _, _ => [.mutateCreate values]

/-- The submit wiring of `src/unnamed/part_000` (line 315):
`form.handleSubmit(onSubmit)` runs `onSubmit` only when the zod resolver
accepts the raw values; otherwise nothing happens. -/
def rhfHandleSubmit (raw : RawFormInput) (isEditing : Bool)
    (project : Option Project) : List Effect :=
  match projectSchemaParse raw with
  | .ok v => onSubmitModal isEditing project v
  | .error _ => []

/-- The fresh-form defaults of `getDefaultValues` in `src/unnamed/part_000`
(lines 246-256); `now` embeds `new Date()`. -/
def defaultProjectFormValues (now : String) : ProjectFormValues :=
  { name := ""
    description := some ""
    clientId := ""
    assigneeId := some "none"
    teamMemberIds := some []
    isRecurring := false
    startDate := now
    templateId := some ""
    status := .notStarted }

/-- The `getDefaultValues` of `src/unnamed/part_000` (lines 244-275).  When
editing an existing project every field is taken from the record with a
JS `||` fallback to the fresh-form default; `startDate` falls back from
`startDate` to `dueDate` to `new Date()`; `new Date(s)` on a date string
is embedded as the string itself. -/
def getDefaultValues (now : String) (project : Option Project)
    (isEditing : Bool) : ProjectFormValues :=
  let dv := defaultProjectFormValues now
  match project, isEditing with
  | some p, true =>
      { name := jsOrStr (some p.name) dv.name
        description := jsOrOpt p.description dv.description
        clientId := jsOrStr (some p.clientId) dv.clientId
        assigneeId := some (jsOrStr p.assigneeId "none")
        teamMemberIds := some (p.teamMemberIds.getD [])
        isRecurring := p.repeating.getD false || p.isRecurring.getD false
          || dv.isRecurring
        startDate :=
          ((jsTruthyStr p.startDate).orElse
            (fun _ => jsTruthyStr p.dueDate)).getD dv.startDate
        templateId := some (jsOrStr p.templateId "")
        status := p.status.getD dv.status }
  | _, _ => dv

/-- The team-member checkbox `onChange` handler of `src/unnamed/part_000`
(lines 526-535): checking a member appends its id to the current list,
unchecking filters it out; an empty id is ignored. -/
def checkboxToggle (current : List String) (id : String) (checked : Bool) :
    List String :=
  if checked && id ≠ "" then current ++ [id]
  else if id ≠ "" then current.filter (fun v => v ≠ id)
  else current

/-- The `handleTeamMemberSelection` of `ProjectModal.tsx` (lines 64-67):
it reads `e.target.selectedOptions`, which the DOM exposes in document
order, so the handler yields the rendered option ids filtered by the
current selection. -/
def handleTeamMemberSelection (renderedOptions : List String)
    (isSelected : String → Bool) : List String :=
  renderedOptions.filter isSelected

/-- The selection state of a multi-select with nothing selected. -/
def emptySelection : String → Bool := fun _ => false

/-- Clicking an option of a multi-select toggles its membership in the
selection. -/
def toggleSelection (sel : String → Bool) (id : String) : String → Bool :=
  fun s => if s = id then !sel s else sel s

/-- Identifier-plus-name record used for the clients, team members and
templates fetched for the selectors. -/
structure NamedRecord where
  mId : Option String := none
  id : Option String := none
  name : String := ""
deriving DecidableEq, Repr

/-- A client record fetched from `GET /clients`. -/
abbrev Client := NamedRecord

/-- A team-member record fetched from `GET /team-members`. -/
abbrev TeamMember := NamedRecord

/-- A template record fetched from `GET /templates`. -/
abbrev Template := NamedRecord

/-- Outcome of an awaited `api.get` call: a response whose `data` may be
missing, or a thrown error. -/
inductive FetchOutcome (α : Type) where
  | success (data : Option (List α))
  | failure (err : String)
deriving DecidableEq, Repr

/-- What a read query function returns together with what it logged. -/
structure QueryResult (α : Type) where
  value : List α
  logged : List (String × String)
deriving DecidableEq, Repr

/-- The shared shape of the three `queryFn`s of `src/unnamed/part_000`
(lines 127-178): `try { return (await api.get(url)).data || [] }
catch (error) { console.error(label, error); return [] }` — the error is
caught and logged, never rethrown. -/
def fetchListQueryFn {α : Type} (label : String) :
    FetchOutcome α → QueryResult α
  | .success d => { value := d.getD [], logged := [] }
  | .failure e => { value := [], logged := [(label, e)] }

/-- The clients `queryFn` (lines 130-142). -/
def clientsQueryFn : FetchOutcome Client → QueryResult Client :=
  fetchListQueryFn "Error fetching clients:"

/-- The team-members `queryFn` (lines 148-160). -/
def teamMembersQueryFn : FetchOutcome TeamMember → QueryResult TeamMember :=
  fetchListQueryFn "Error fetching team members:"

/-- The templates `queryFn` (lines 166-178). -/
def templatesQueryFn : FetchOutcome Template → QueryResult Template :=
  fetchListQueryFn "Error fetching templates:"

/-- The three independent read fetches of the modal: each query resolves
from its own network outcome only. -/
def loadReferenceData (oc : FetchOutcome Client) (ot : FetchOutcome TeamMember)
    (om : FetchOutcome Template) :
    QueryResult Client × QueryResult TeamMember × QueryResult Template :=
  (clientsQueryFn oc, teamMembersQueryFn ot, templatesQueryFn om)

/-- What happens when a click event reaches the pagination anchor: whether
`preventDefault` was called and whether a caller-supplied `onClick`
handler ran. -/
structure ClickBehavior where
  prevented : Bool
  callerHandlerRan : Bool
deriving DecidableEq, Repr

/-- The inline `onClick` handler written in `PaginationLink`
(`pagination.tsx` lines 61-66): it calls `preventDefault` when `disabled`
and then unconditionally invokes `props.onClick` when present. -/
def paginationInlineHandler (disabled : Bool) (callerOnClick : Option Unit) :
    ClickBehavior :=
  { prevented := disabled, callerHandlerRan := callerOnClick.isSome }

/-- The handler actually attached to the anchor.  In the JSX the
`onClick={...}` attribute precedes `{...props}` (lines 61-67), so by JS
object-spread semantics a caller-supplied `onClick` key overrides the
inline handler entirely: the caller handler runs bare, with no
`preventDefault` from the component. -/
def paginationClickBehavior (disabled : Bool) (callerOnClick : Option Unit) :
    ClickBehavior :=
  match callerOnClick with
  | some _ => { prevented := false, callerHandlerRan := true }
  | none => paginationInlineHandler disabled none

/-- The rendered attributes of `PaginationLink` (lines 47-70), a pure
function of its props — the component keeps no internal state. -/
structure PaginationLinkRender where
  ariaCurrentPage : Bool
  ariaDisabled : Bool
  variant : String
  disabledClasses : List String
  click : ClickBehavior
deriving DecidableEq, Repr

/-- Renders `PaginationLink`: `aria-current="page"` exactly when active,
`aria-disabled` mirrors `disabled`, the button variant is "outline" when
active else "ghost", and `disabled` adds the classes
`pointer-events-none opacity-50`. -/
def renderPaginationLink (isActive disabled : Bool)
    (callerOnClick : Option Unit) : PaginationLinkRender :=
  { ariaCurrentPage := isActive
    ariaDisabled := disabled
    variant := if isActive then "outline" else "ghost"
    disabledClasses :=
      if disabled then ["pointer-events-none", "opacity-50"] else []
    click := paginationClickBehavior disabled callerOnClick }

/-- When the name or the client reference of the raw form input is empty,
the zod schema rejects the input. -/
theorem projectSchemaParse_not_ok_of_empty (raw : RawFormInput)
    (h : raw.name.getD "" = "" ∨ raw.clientId.getD "" = "") :
    ∀ v, projectSchemaParse raw ≠ .ok v := by
  intro v hv
  unfold projectSchemaParse at hv
  rcases h with h | h
  · rw [h] at hv
    simp at hv
  · rw [h] at hv
    by_cases hn : (raw.name.getD "").length < 1 <;> simp [hn] at hv

/-- C1: for every submission of the project form in which the name field
is empty or the client reference is empty, the submit handler returns
without issuing any create or update network call — in the
`ProjectModal.tsx` variant the `handleSubmit` guards stop before
`createProject`, and in the `src/unnamed/part_000` variant the zod
resolver rejects the values, so `onSubmit` and its mutations never run. -/
theorem submit_empty_name_or_client_no_network
    (fd : CreateProjectFormData) (r : Except ApiError Unit)
    (raw : RawFormInput) (isEditing : Bool) (project : Option Project)
    (hfd : fd.name = "" ∨ fd.clientId = "")
    (hraw : raw.name.getD "" = "" ∨ raw.clientId.getD "" = "") :
    issuesNoNetworkCall (handleSubmit fd r) ∧
    rhfHandleSubmit raw isEditing project = [] := by
  constructor
  · rcases hfd with h | h
    · have ht : jsTrim fd.name = "" := by rw [h]; rfl
      intro e he
      simp only [handleSubmit, if_pos ht] at he
      simp at he
      subst he
      rfl
    · intro e he
      by_cases ht : jsTrim fd.name = ""
      · simp only [handleSubmit, if_pos ht] at he
        simp at he
        subst he
        rfl
      · simp only [handleSubmit, if_neg ht, if_pos h] at he
        simp at he
        subst he
        rfl
  · cases hpp : projectSchemaParse raw with
    | ok v =>
        exact absurd hpp
          (fun hh => projectSchemaParse_not_ok_of_empty raw hraw v hh)
    | error es =>
        unfold rhfHandleSubmit
        rw [hpp]

/-- Witness for C1: a concrete submission with an empty name issues no
network call in either variant. -/
theorem submit_empty_name_or_client_no_network_witness :
    issuesNoNetworkCall
      (handleSubmit { name := "", clientId := "c1" } (.ok ())) ∧
    rhfHandleSubmit
      { name := some "", clientId := some "c1",
        startDate := some "2025-06-01" } false none = [] :=
  submit_empty_name_or_client_no_network
    { name := "", clientId := "c1" } (.ok ())
    { name := some "", clientId := some "c1", startDate := some "2025-06-01" }
    false none (Or.inl rfl) (Or.inl rfl)

/-- C2 counterexample: with the checkbox handler of the
`src/unnamed/part_000` variant, starting from the empty selection and
selecting member C and then member A yields the list ["C", "A"], which
is neither ["A", "C"] nor the list obtained by selecting in the other
order — the resulting list depends on selection order. -/
theorem teamMember_selection_order_counterexample :
    checkboxToggle (checkboxToggle [] "C" true) "A" true = ["C", "A"] ∧
    checkboxToggle (checkboxToggle [] "C" true) "A" true ≠ ["A", "C"] ∧
    checkboxToggle (checkboxToggle [] "C" true) "A" true ≠
      checkboxToggle (checkboxToggle [] "A" true) "C" true := by
  decide

/-- C2 (amended): over available members A, B, C, selecting A and C and
deselecting none always yields a selection containing exactly A and C.
In the `ProjectModal.tsx` multi-select variant the handler reads the
selected options in document order, so the list is ["A", "C"] regardless
of click order; in the `src/unnamed/part_000` checkbox variant the list
reflects click order — ["A", "C"] or ["C", "A"] — and the two orders
agree only up to permutation. -/
theorem teamMember_selection_amended :
    handleTeamMemberSelection ["A", "B", "C"]
      (toggleSelection (toggleSelection emptySelection "A") "C") =
        ["A", "C"] ∧
    handleTeamMemberSelection ["A", "B", "C"]
      (toggleSelection (toggleSelection emptySelection "C") "A") =
        ["A", "C"] ∧
    checkboxToggle (checkboxToggle [] "A" true) "C" true = ["A", "C"] ∧
    checkboxToggle (checkboxToggle [] "C" true) "A" true = ["C", "A"] ∧
    (checkboxToggle (checkboxToggle [] "C" true) "A" true).Perm
      (checkboxToggle (checkboxToggle [] "A" true) "C" true) :=
  ⟨by decide, by decide, by decide, by decide, List.Perm.swap "A" "C" []⟩

/-- C3: in the `ProjectModal.tsx` variant, a submission with the
recurrence flag true and no frequency chosen is rejected by the native
constraint validation driven by the `required` attribute on the rendered
frequency select: the submit event never fires, so nothing happens and in
particular no network call is issued. -/
theorem recurring_without_frequency_blocked
    (fd : CreateProjectFormData) (r : Except ApiError Unit)
    (hrep : fd.repeating = true) (hfreq : fd.frequency = "") :
    tsxSubmitFlow fd r = [] ∧ issuesNoNetworkCall (tsxSubmitFlow fd r) := by
  have hv : nativeFormValid fd = false := by
    unfold nativeFormValid
    rw [hrep, hfreq]
    simp
  have h0 : tsxSubmitFlow fd r = [] := by
    unfold tsxSubmitFlow
    rw [hv]
    rfl
  refine ⟨h0, ?_⟩
  rw [h0]
  intro e he
  exact absurd he (List.not_mem_nil e)

/-- Witness for C3: a concrete recurring submission without a frequency
is blocked. -/
theorem recurring_without_frequency_blocked_witness :
    tsxSubmitFlow
      { name := "P", clientId := "c1", repeating := true, frequency := "" }
      (.ok ()) = [] ∧
    issuesNoNetworkCall
      (tsxSubmitFlow
        { name := "P", clientId := "c1", repeating := true, frequency := "" }
        (.ok ())) :=
  recurring_without_frequency_blocked
    { name := "P", clientId := "c1", repeating := true, frequency := "" }
    (.ok ()) rfl rfl

/-- C4: when the submitted assignee holds the "none" sentinel, the payload
sent to the backend — for the create POST and the update PATCH alike —
carries an absent assignee value, and its team-member field is always the
submitted list (the empty list when the runtime value was not an
array). -/
theorem none_assignee_absent_in_payload
    (d : ProjectFormValues) (id : String)
    (h : d.assigneeId = some "none") :
    (createMutationFn d).body.assigneeId = none ∧
    (updateMutationFn id d).body.assigneeId = none ∧
    (createMutationFn d).body.teamMemberIds = d.teamMemberIds.getD [] ∧
    (updateMutationFn id d).body.teamMemberIds = d.teamMemberIds.getD [] ∧
    (createMutationFn d).method = .post ∧
    (createMutationFn d).url = "/projects" ∧
    (updateMutationFn id d).method = .patch ∧
    (updateMutationFn id d).url = "/projects/" ++ id := by
  refine ⟨?_, ?_, rfl, rfl, rfl, rfl, rfl, rfl⟩ <;>
    simp [createMutationFn, updateMutationFn, formatProjectData, h]

/-- Witness for C4: a concrete submission with the "none" sentinel. -/
theorem none_assignee_absent_in_payload_witness :
    (createMutationFn { assigneeId := some "none" }).body.assigneeId =
      none ∧
    (updateMutationFn "p7" { assigneeId := some "none" }).body.assigneeId =
      none := by
  have h := none_assignee_absent_in_payload
    { assigneeId := some "none" } "p7" rfl
  exact ⟨h.1, h.2.1⟩

/-- C5: when the backend record returned by a successful creation carries
the identifier "p1" (the handler reads `_id` falling back to `id`), the
caller-supplied created callback is invoked with exactly "p1"; on a
successful update the updated callback is invoked with no payload. -/
theorem created_callback_receives_backend_id
    (r : BackendRecord)
    (h : jsOrOpt r.mId r.id = some "p1") :
    createOnSuccess true r =
      [.toastSuccess "Project created successfully",
       .invokeOnCreated (some "p1")] ∧
    updateOnSuccess true =
      [.toastSuccess "Project updated successfully", .invokeOnUpdated] := by
  constructor
  · unfold createOnSuccess
    rw [h]
    rfl
  · rfl

/-- Witness for C5: a backend record whose `_id` is "p1". -/
theorem created_callback_receives_backend_id_witness :
    createOnSuccess true { mId := some "p1" } =
      [.toastSuccess "Project created successfully",
       .invokeOnCreated (some "p1")] ∧
    updateOnSuccess true =
      [.toastSuccess "Project updated successfully", .invokeOnUpdated] :=
  created_callback_receives_backend_id { mId := some "p1" } (by decide)

/-- C6 counterexample: in the `ProjectModal.tsx` variant, a failed create
whose error response carries the backend message "Duplicate project name"
still shows the generic notification "Failed to create project" — the
backend-provided message is never used, so the claim fails as stated for
that variant. -/
theorem mutation_failure_message_counterexample :
    handleSubmit { name := "P", clientId := "c1" }
        (.error { responseMessage := some "Duplicate project name" }) =
      [.createProjectCall
        (buildNewProject { name := "P", clientId := "c1" }),
       .toastError "Failed to create project"] ∧
    Effect.toastError "Duplicate project name" ∉
      handleSubmit { name := "P", clientId := "c1" }
        (.error { responseMessage := some "Duplicate project name" }) := by
  decide

/-- C6 (amended): on a failed create or update in the
`src/unnamed/part_000` variant, the error notification shows the
backend-provided message when it is present and non-empty and the generic
fallback when it is absent; in the `ProjectModal.tsx` variant the
notification is always the generic fallback, whatever the backend sent.
In both variants the failure handlers neither close the modal nor touch
the form, so the form stays open for retry. -/
theorem mutation_failure_message_amended
    (e : ApiError) (m : String) (fd : CreateProjectFormData)
    (hm : e.responseMessage = some m) (hne : m ≠ "")
    (hname : jsTrim fd.name ≠ "") (hclient : fd.clientId ≠ "") :
    createOnError e = [.toastError m] ∧
    updateOnError e = [.toastError m] ∧
    (∀ e2 : ApiError, e2.responseMessage = none →
      createOnError e2 = [.toastError "Failed to create project"] ∧
      updateOnError e2 = [.toastError "Failed to update project"]) ∧
    (∀ e2 : ApiError, Effect.closeModal ∉ createOnError e2 ∧
      Effect.closeModal ∉ updateOnError e2) ∧
    handleSubmit fd (.error e) =
      [.createProjectCall (buildNewProject fd),
       .toastError "Failed to create project"] ∧
    Effect.closeModal ∉ handleSubmit fd (.error e) := by
  have hts : handleSubmit fd (.error e) =
      [.createProjectCall (buildNewProject fd),
       .toastError "Failed to create project"] := by
    simp only [handleSubmit, if_neg hname, if_neg hclient]
  refine ⟨?_, ?_, ?_, ?_, hts, ?_⟩
  · simp [createOnError, jsOrStr, hm, hne]
  · simp [updateOnError, jsOrStr, hm, hne]
  · intro e2 h2
    constructor <;> simp [createOnError, updateOnError, jsOrStr, h2]
  · intro e2
    constructor <;> simp [createOnError, updateOnError]
  · rw [hts]
    simp

/-- Witness for C6 (amended) at concrete inputs. -/
theorem mutation_failure_message_amended_witness :
    createOnError { responseMessage := some "Duplicate client" } =
      [.toastError "Duplicate client"] ∧
    handleSubmit { name := "P", clientId := "c1" }
        (.error { responseMessage := some "Duplicate client" }) =
      [.createProjectCall
        (buildNewProject { name := "P", clientId := "c1" }),
       .toastError "Failed to create project"] := by
  have h := mutation_failure_message_amended
    { responseMessage := some "Duplicate client" } "Duplicate client"
    { name := "P", clientId := "c1" } rfl (by decide) (by decide) (by decide)
  exact ⟨h.1, h.2.2.2.2.1⟩

/-- C7: a failed read fetch of clients, team members, or templates is
caught inside its query function, logged, and resolved to the empty list
instead of propagating — and each of the three fetches degrades
independently: every component of `loadReferenceData` is determined by
its own network outcome alone. -/
theorem read_fetch_failure_degrades_to_empty
    (e : String) (oc : FetchOutcome Client) (ot : FetchOutcome TeamMember)
    (om : FetchOutcome Template) :
    (loadReferenceData (.failure e) ot om).1 =
      { value := [], logged := [("Error fetching clients:", e)] } ∧
    (loadReferenceData oc (.failure e) om).2.1 =
      { value := [], logged := [("Error fetching team members:", e)] } ∧
    (loadReferenceData oc ot (.failure e)).2.2 =
      { value := [], logged := [("Error fetching templates:", e)] } ∧
    (loadReferenceData oc ot om).1 = clientsQueryFn oc ∧
    (loadReferenceData oc ot om).2.1 = teamMembersQueryFn ot ∧
    (loadReferenceData oc ot om).2.2 = templatesQueryFn om :=
  ⟨rfl, rfl, rfl, rfl, rfl, rfl⟩

/-- C8: in edit mode the computed default form values take each field from
the supplied record when present and fall back to the documented defaults
when absent — missing status becomes "Not Started", missing assignee
becomes the "none" sentinel, missing team-member list becomes the empty
list, missing recurrence flags become false, and a missing start date
falls back to the due date and then to the current date. -/
theorem edit_mode_default_values (now : String) (p : Project) :
    (p.status = none →
      (getDefaultValues now (some p) true).status = .notStarted) ∧
    (∀ s, p.status = some s →
      (getDefaultValues now (some p) true).status = s) ∧
    (p.assigneeId = none →
      (getDefaultValues now (some p) true).assigneeId = some "none") ∧
    (p.teamMemberIds = none →
      (getDefaultValues now (some p) true).teamMemberIds = some []) ∧
    (∀ l, p.teamMemberIds = some l →
      (getDefaultValues now (some p) true).teamMemberIds = some l) ∧
    (p.repeating = none → p.isRecurring = none →
      (getDefaultValues now (some p) true).isRecurring = false) ∧
    (p.repeating = some true →
      (getDefaultValues now (some p) true).isRecurring = true) ∧
    (∀ s, p.startDate = some s → s ≠ "" →
      (getDefaultValues now (some p) true).startDate = s) ∧
    (∀ d, p.startDate = none → p.dueDate = some d → d ≠ "" →
      (getDefaultValues now (some p) true).startDate = d) ∧
    (p.startDate = none → p.dueDate = none →
      (getDefaultValues now (some p) true).startDate = now) ∧
    (p.name ≠ "" → (getDefaultValues now (some p) true).name = p.name) ∧
    (p.clientId ≠ "" →
      (getDefaultValues now (some p) true).clientId = p.clientId) := by
  refine ⟨?_, ?_, ?_, ?_, ?_, ?_, ?_, ?_, ?_, ?_, ?_, ?_⟩
  · intro h
    simp [getDefaultValues, defaultProjectFormValues, h]
  · intro s h
    simp [getDefaultValues, defaultProjectFormValues, h]
  · intro h
    simp [getDefaultValues, defaultProjectFormValues, jsOrStr, h]
  · intro h
    simp [getDefaultValues, defaultProjectFormValues, h]
  · intro l h
    simp [getDefaultValues, defaultProjectFormValues, h]
  · intro h1 h2
    simp [getDefaultValues, defaultProjectFormValues, h1, h2]
  · intro h
    simp [getDefaultValues, defaultProjectFormValues, h]
  · intro s h hs
    simp [getDefaultValues, defaultProjectFormValues, jsTruthyStr, h, hs]
  · intro d h1 h2 hd
    simp [getDefaultValues, defaultProjectFormValues, jsTruthyStr, h1, h2,
      hd]
  · intro h1 h2
    simp [getDefaultValues, defaultProjectFormValues, jsTruthyStr, h1, h2]
  · intro h
    simp [getDefaultValues, defaultProjectFormValues, jsOrStr, h]
  · intro h
    simp [getDefaultValues, defaultProjectFormValues, jsOrStr, h]

/-- Witness for C8: an empty record in edit mode gets every documented
default. -/
theorem edit_mode_default_values_witness :
    (getDefaultValues "2025-06-01" (some {}) true).status = .notStarted ∧
    (getDefaultValues "2025-06-01" (some {}) true).assigneeId =
      some "none" ∧
    (getDefaultValues "2025-06-01" (some {}) true).teamMemberIds =
      some [] ∧
    (getDefaultValues "2025-06-01" (some {}) true).isRecurring = false ∧
    (getDefaultValues "2025-06-01" (some {}) true).startDate =
      "2025-06-01" := by
  obtain ⟨h1, h2, h3, h4, h5, h6, h7, h8, h9, h10, h11, h12⟩ :=
    edit_mode_default_values "2025-06-01" ({} : Project)
  exact ⟨h1 rfl, h3 rfl, h4 rfl, h6 rfl rfl, h10 rfl rfl⟩

/-- C9 counterexample: a disabled pagination link with a caller-supplied
`onClick` does not behave as claimed — the `onClick={...}` attribute is
written before the `{...props}` spread, so the caller handler replaces
the inline one: a click on the disabled link runs the caller handler and
no `preventDefault` is issued by the component. -/
theorem pagination_disabled_click_counterexample :
    (renderPaginationLink false true (some ())).click =
      { prevented := false, callerHandlerRan := true } ∧
    ¬ ((renderPaginationLink false true (some ())).click.prevented = true ∧
       (renderPaginationLink false true (some ())).click.callerHandlerRan =
         false) := by
  decide

/-- C9 (amended): `PaginationLink` is a pure function of its props with no
internal state.  When the caller supplies no click handler, a click is
`preventDefault`-ed exactly when `disabled` is true and no caller handler
runs; a caller-supplied `onClick` overrides the inline handler via the
prop spread, so the caller handler runs and the component issues no
`preventDefault` — disabled then suppresses pointer clicks only through
the `pointer-events-none` class.  The `disabled` flag leaves the variant
and the active marker unchanged. -/
theorem pagination_disabled_amended (isActive disabled : Bool) :
    renderPaginationLink isActive disabled none =
      { ariaCurrentPage := isActive
        ariaDisabled := disabled
        variant := if isActive then "outline" else "ghost"
        disabledClasses :=
          if disabled then ["pointer-events-none", "opacity-50"] else []
        click := { prevented := disabled, callerHandlerRan := false } } ∧
    renderPaginationLink isActive disabled (some ()) =
      { ariaCurrentPage := isActive
        ariaDisabled := disabled
        variant := if isActive then "outline" else "ghost"
        disabledClasses :=
          if disabled then ["pointer-events-none", "opacity-50"] else []
        click := { prevented := false, callerHandlerRan := true } } ∧
    (∀ cb, (renderPaginationLink isActive disabled cb).variant =
        (renderPaginationLink isActive false cb).variant ∧
      (renderPaginationLink isActive disabled cb).ariaCurrentPage =
        (renderPaginationLink isActive false cb).ariaCurrentPage) :=
  ⟨rfl, rfl, fun _ => ⟨rfl, rfl⟩⟩

/-- C10: an edit-mode submission whose existing record has neither an `id`
nor an `_id` issues no network call: the handler only shows the
missing-identifier error notification and leaves the form untouched. -/
theorem edit_missing_id_no_network
    (p : Project) (v : ProjectFormValues)
    (hid : p.id = none) (hmid : p.mId = none) :
    onSubmitModal true (some p) v =
      [.toastError "Cannot update project: Missing project ID"] ∧
    issuesNoNetworkCall (onSubmitModal true (some p) v) := by
  have h0 : onSubmitModal true (some p) v =
      [.toastError "Cannot update project: Missing project ID"] := by
    simp only [onSubmitModal, truthyProjectId, hid, hmid]
    rfl
  refine ⟨h0, ?_⟩
  rw [h0]
  intro e he
  simp at he
  subst he
  rfl

/-- Witness for C10: a record with no identifier fields. -/
theorem edit_missing_id_no_network_witness :
    onSubmitModal true (some {}) {} =
      [.toastError "Cannot update project: Missing project ID"] ∧
    issuesNoNetworkCall (onSubmitModal true (some {}) {}) :=
  edit_missing_id_no_network {} {} rfl rfl

end Jetpack
